import Mathlib

/-!
Verification of the happy session hook notification pipeline.

Two components are embedded from the source:
 - the Forwarder (`session_hook_forwarder.cjs`): reads stdin to end-of-stream
   and issues one HTTP POST to the hook server;
 - the Notification Server (`startHookServer`): three POST routes, a 5-second
   timer on the session-start route, JSON body parsing and session-id
   extraction with JavaScript truthiness semantics.

JavaScript runtime values produced by `JSON.parse` are modelled by `JsValue`
(`undefined` is included because property access on a non-object yields it).
JSON numbers are modelled as integers: no claim involves fractional values.
-/

namespace HappyHooks

/-- A JavaScript value as it can appear at runtime in the hook server handler.
`undefined` never comes out of `JSON.parse` but arises from property access. -/
inductive JsValue where
  | undefined : JsValue
  | null : JsValue
  | bool : Bool → JsValue
  | num : Int → JsValue
  | str : String → JsValue
  | arr : List JsValue → JsValue
  | obj : List (String × JsValue) → JsValue

/-- JavaScript truthiness of a value, as used by `a || b` and `if (sessionId)`.
Falsy values: `undefined`, `null`, `false`, `0`, the empty string. -/
def truthy : JsValue → Bool
  | .undefined => false
  | .null => false
  | .bool b => b
  | .num n => n != 0
  | .str s => s != ""
  | .arr _ => true
  | .obj _ => true

/-- Field lookup in an object built by `JSON.parse`: the last occurrence of a
duplicated key wins, a missing key yields `undefined`. -/
def objGet (fields : List (String × JsValue)) (k : String) : JsValue :=
  (fields.reverse.lookup k).getD .undefined

/-- JavaScript property access `v.k`: throws a TypeError (modelled as
`Except.error ()`) on `null` and `undefined`, yields `undefined` on other
non-object values, looks the key up on objects. -/
def getProp : JsValue → String → Except Unit JsValue
  | .undefined, _ => .error ()
  | .null, _ => .error ()
  | .obj fields, k => .ok (objGet fields k)
  | _, _ => .ok .undefined

/-- The session-id extraction of the session-start route:
`const sessionId = data.session_id || data.sessionId; if (sessionId) ...`.
Returns `some id` when a truthy identifier is found, `none` when the route
skips the callback, and an error when property access throws. -/
def sessionStartExtract (data : JsValue) : Except Unit (Option JsValue) :=
  match getProp data "session_id" with
  | .error e => .error e
  | .ok v1 =>
    match (if truthy v1 then Except.ok v1 else getProp data "sessionId") with
    | .error e => .error e
    | .ok sid => .ok (if truthy sid then some sid else none)

/-! ## A model of `JSON.parse`

A recursive-descent decoder over the character list, with fuel for
termination. It covers the fragment exercised by the hook payloads:
literals, integers, strings with the single-character escapes, arrays and
objects. General theorems below quantify over the parse *outcome*, so the
decoder is only evaluated on concrete inputs inside this fragment. -/

def lbrace : Char := Char.ofNat 123

def rbrace : Char := Char.ofNat 125

def isJsonWs (c : Char) : Bool := c == ' ' || c == '\t' || c == '\n' || c == '\r'

def skipWs (cs : List Char) : List Char := cs.dropWhile isJsonWs

/-- Decode the remainder of a JSON string after the opening quote, returning
the decoded characters and the rest of the input. -/
def parseStringChars : List Char → Option (List Char × List Char)
  | [] => none
  | c :: rest =>
    if c == '"' then some ([], rest)
    else if c == '\\' then
      match rest with
      | [] => none
      | e :: rest2 =>
        let dec : Option Char :=
          if e == '"' then some '"'
          else if e == '\\' then some '\\'
          else if e == '/' then some '/'
          else if e == 'n' then some '\n'
          else if e == 't' then some '\t'
          else if e == 'r' then some '\r'
          else if e == 'b' then some (Char.ofNat 8)
          else if e == 'f' then some (Char.ofNat 12)
          else none
        match dec with
        | none => none
        | some d =>
          match parseStringChars rest2 with
          | none => none
          | some (s, rest3) => some (d :: s, rest3)
    else
      match parseStringChars rest with
      | none => none
      | some (s, rest3) => some (c :: s, rest3)

def digitsVal (ds : List Char) : Nat := ds.foldl (fun a c => 10 * a + (c.toNat - 48)) 0

/-- Decode an integer JSON number token (optional minus, no leading zeros,
no fraction or exponent). -/
def parseNumberToken (cs : List Char) : Option (Int × List Char) :=
  let sign : Int := match cs with
    | c :: _ => if c == '-' then -1 else 1
    | [] => 1
  let cs1 := match cs with
    | c :: rest => if c == '-' then rest else cs
    | [] => cs
  let ds := cs1.takeWhile Char.isDigit
  let rest := cs1.dropWhile Char.isDigit
  if ds.isEmpty then none
  else if 1 < ds.length && ds.headD '0' == '0' then none
  else match rest with
    | c :: _ =>
      if c == '.' || c == 'e' || c == 'E' then none
      else some (sign * (digitsVal ds : Int), rest)
    | [] => some (sign * (digitsVal ds : Int), rest)

mutual

/-- Decode one JSON value; returns the value and the remaining input. -/
def parseVal : Nat → List Char → Option (JsValue × List Char)
  | 0, _ => none
  | Nat.succ fuel, cs0 =>
    let cs := skipWs cs0
    match cs with
    | [] => none
    | c :: rest =>
      if c == 'n' then
        match rest with
        | 'u' :: 'l' :: 'l' :: r => some (.null, r)
        | _ => none
      else if c == 't' then
        match rest with
        | 'r' :: 'u' :: 'e' :: r => some (.bool true, r)
        | _ => none
      else if c == 'f' then
        match rest with
        | 'a' :: 'l' :: 's' :: 'e' :: r => some (.bool false, r)
        | _ => none
      else if c == '"' then
        match parseStringChars rest with
        | none => none
        | some (s, r) => some (.str (String.mk s), r)
      else if c == '[' then
        match skipWs rest with
        | c2 :: r2 =>
          if c2 == ']' then some (.arr [], r2)
          else
            match parseElems fuel (skipWs rest) with
            | none => none
            | some (vs, r) => some (.arr vs, r)
        | [] => none
      else if c == lbrace then
        match skipWs rest with
        | c2 :: r2 =>
          if c2 == rbrace then some (.obj [], r2)
          else
            match parseMembers fuel (skipWs rest) with
            | none => none
            | some (fs, r) => some (.obj fs, r)
        | [] => none
      else if c == '-' || c.isDigit then
        match parseNumberToken cs with
        | none => none
        | some (n, r) => some (.num n, r)
      else none

/-- Decode the elements of a nonempty JSON array up to the closing bracket. -/
def parseElems : Nat → List Char → Option (List JsValue × List Char)
  | 0, _ => none
  | Nat.succ fuel, cs =>
    match parseVal fuel cs with
    | none => none
    | some (v, r) =>
      match skipWs r with
      | c :: r2 =>
        if c == ',' then
          match parseElems fuel r2 with
          | none => none
          | some (vs, r3) => some (v :: vs, r3)
        else if c == ']' then some ([v], r2)
        else none
      | [] => none

/-- Decode the members of a nonempty JSON object up to the closing brace. -/
def parseMembers : Nat → List Char → Option (List (String × JsValue) × List Char)
  | 0, _ => none
  | Nat.succ fuel, cs0 =>
    match skipWs cs0 with
    | c :: rest =>
      if c == '"' then
        match parseStringChars rest with
        | none => none
        | some (k, r1) =>
          match skipWs r1 with
          | c2 :: r2 =>
            if c2 == ':' then
              match parseVal fuel r2 with
              | none => none
              | some (v, r3) =>
                match skipWs r3 with
                | c3 :: r4 =>
                  if c3 == ',' then
                    match parseMembers fuel r4 with
                    | none => none
                    | some (fs, r5) => some ((String.mk k, v) :: fs, r5)
                  else if c3 == rbrace then some ([(String.mk k, v)], r4)
                  else none
                | [] => none
            else none
          | [] => none
      else none
    | [] => none

end

/-- The model of `JSON.parse`: decode one value and require only trailing
whitespace after it. `none` models a thrown SyntaxError. -/
def jsonParse (s : String) : Option JsValue :=
  match parseVal (s.length + 1) s.data with
  | none => none
  | some (v, rest) => if (skipWs rest).isEmpty then some v else none

/-! ## The Notification Server (`startHookServer`)

A registered callback is modelled by its observable behaviour when invoked:
whether it throws. The invocations a request provokes are collected in the
result, and response writes are modelled with the `headersSent` guard of the
source: a response is committed only when none has been committed before. -/

/-- Observable behaviour of a registered callback when it is invoked. -/
structure CallbackBehavior where
  throws : Bool

/-- Runtime view of the `HookServerOptions` interface. In the source type,
`onSessionHook` is a required field while `onThinkingStart` and
`onThinkingStop` are optional; at runtime any of the three slots can hold
`undefined`, modelled by `none`. -/
structure HookServerOptions where
  onSessionHook : Option CallbackBehavior
  onThinkingStart : Option CallbackBehavior
  onThinkingStop : Option CallbackBehavior

/-- One observed callback invocation. -/
inductive Invocation where
  | sessionHook (sessionId : JsValue) (data : JsValue)
  | thinkingStart
  | thinkingStop

/-- What handling one request produced: the responses actually committed
(status code and body text, in order) and the callback invocations. -/
structure RouteResult where
  responses : List (Nat × String)
  invocations : List Invocation

/-- How the request body stream behaves, as seen by the handler. The 5-second
window is only armed on the session-start route; on the other routes the two
timeout constructors mean the body is merely slow. -/
inductive BodyOutcome where
  | complete (body : String)
  | drainError
  | timeout
  | timeoutThenComplete (body : String)

/-- Dispatch of the session-start handler on the decoded payload: session-id
extraction, the callback invocation, and the 200/500 writes, each guarded by
`headersSent` (`alreadyResponded`). An attempted write on an already-committed
response throws and is swallowed by the catch block. -/
def sessionStartData (onSessionHook : Option CallbackBehavior)
    (alreadyResponded : Bool) (data : JsValue) : RouteResult :=
  match sessionStartExtract data with
  | .error _ =>
    if alreadyResponded then ⟨[], []⟩ else ⟨[(500, "error")], []⟩
  | .ok none =>
    if alreadyResponded then ⟨[], []⟩ else ⟨[(200, "ok")], []⟩
  | .ok (some sid) =>
    match onSessionHook with
    | none =>
      if alreadyResponded then ⟨[], []⟩ else ⟨[(500, "error")], []⟩
    | some beh =>
      if beh.throws then
        if alreadyResponded then ⟨[], [.sessionHook sid data]⟩
        else ⟨[(500, "error")], [.sessionHook sid data]⟩
      else
        if alreadyResponded then ⟨[], [.sessionHook sid data]⟩
        else ⟨[(200, "ok")], [.sessionHook sid data]⟩

/-- The continuation of the session-start handler once the body has fully
arrived: `JSON.parse` falling back to the empty object on a parse error,
then the dispatch above. -/
def sessionStartComplete (onSessionHook : Option CallbackBehavior)
    (alreadyResponded : Bool) (body : String) : RouteResult :=
  sessionStartData onSessionHook alreadyResponded ((jsonParse body).getD (.obj []))

/-- The `POST /hook/session-start` route. The 5-second timer writes 408 when
it fires before any response was committed; if the stream completes only
afterwards, the handler resumes with `alreadyResponded = true`. -/
def sessionStartRoute (onSessionHook : Option CallbackBehavior) :
    BodyOutcome → RouteResult
  | .complete body => sessionStartComplete onSessionHook false body
  | .drainError => ⟨[(500, "error")], []⟩
  | .timeout => ⟨[(408, "timeout")], []⟩
  | .timeoutThenComplete body =>
    let rest := sessionStartComplete onSessionHook true body
    ⟨(408, "timeout") :: rest.responses, rest.invocations⟩

/-- Shared continuation of the two drain-and-notify routes once the body has
fully arrived: invoke the optional callback via optional chaining, then 200;
a throwing callback yields the guarded 500. -/
def drainComplete (cb : Option CallbackBehavior) (inv : Invocation) : RouteResult :=
  match cb with
  | none => ⟨[(200, "ok")], []⟩
  | some beh =>
    if beh.throws then ⟨[(500, "error")], [inv]⟩ else ⟨[(200, "ok")], [inv]⟩

/-- The `POST /hook/user-prompt-submit` and `POST /hook/stop` routes: drain
the body, invoke the optional callback, respond. These routes arm no timer,
so a body that never completes leaves the handler waiting with no response. -/
def drainRoute (cb : Option CallbackBehavior) (inv : Invocation) :
    BodyOutcome → RouteResult
  | .complete _ => drainComplete cb inv
  | .timeoutThenComplete _ => drainComplete cb inv
  | .drainError => ⟨[(500, "error")], []⟩
  | .timeout => ⟨[], []⟩

/-- One incoming HTTP request as the handler observes it. -/
structure Request where
  method : String
  url : String
  body : BodyOutcome

/-- The request handler of `startHookServer`: the three recognized
`(method, path)` pairs in source order, and 404 for everything else. -/
def handleRequest (options : HookServerOptions) (req : Request) : RouteResult :=
  if req.method = "POST" ∧ req.url = "/hook/user-prompt-submit" then
    drainRoute options.onThinkingStart .thinkingStart req.body
  else if req.method = "POST" ∧ req.url = "/hook/stop" then
    drainRoute options.onThinkingStop .thinkingStop req.body
  else if req.method = "POST" ∧ req.url = "/hook/session-start" then
    sessionStartRoute options.onSessionHook req.body
  else ⟨[(404, "not found")], []⟩

/-- The recognized routes of the server. -/
def recognizedRoute (method url : String) : Prop :=
  method = "POST" ∧
    (url = "/hook/user-prompt-submit" ∨ url = "/hook/stop" ∨
      url = "/hook/session-start")

instance (method url : String) : Decidable (recognizedRoute method url) := by
  unfold recognizedRoute
  infer_instance

/-- The server services each accepted request with the same handler,
independently of what earlier requests did: every exception is caught inside
the handler, so one failing request does not stop the listener. -/
def serveRequests (options : HookServerOptions) (reqs : List Request) :
    List RouteResult :=
  reqs.map (handleRequest options)

/-! ## The Forwarder (`session_hook_forwarder.cjs`) -/

/-- The result of `parseInt(s, 10)`: leading whitespace is skipped, an
optional sign is followed by the longest digit prefix; no digits means `NaN`,
modelled as `none`. -/
def parseIntJs (s : String) : Option Int :=
  let cs := s.data.dropWhile fun c =>
    c == ' ' || c == '\t' || c == '\n' || c == '\r' || c == Char.ofNat 11 || c == Char.ofNat 12
  match cs with
  | '-' :: rest =>
    let ds := rest.takeWhile Char.isDigit
    if ds.isEmpty then none else some (-(digitsVal ds : Int))
  | '+' :: rest =>
    let ds := rest.takeWhile Char.isDigit
    if ds.isEmpty then none else some (digitsVal ds : Int)
  | _ =>
    let ds := cs.takeWhile Char.isDigit
    if ds.isEmpty then none else some (digitsVal ds : Int)

/-- `process.argv[3] || 'session-start'`: the event type defaults when the
argument is absent or empty (falsy). -/
def forwardedEventType : Option String → String
  | none => "session-start"
  | some s => if s = "" then "session-start" else s

/-- The outbound request the Forwarder builds from its buffered stdin. -/
structure HttpRequestSpec where
  host : String
  port : Int
  method : String
  path : String
  contentType : String
  contentLength : Nat

/-- What one Forwarder invocation did: exited before touching stdin or the
network, or read stdin to end-of-stream and issued exactly one POST. -/
inductive ForwarderResult where
  | exitError (code : Nat)
  | posted (req : HttpRequestSpec)

/-- The Forwarder: `parseInt` the port argument, exit 1 when the result is
falsy or `NaN` (before any stdin read), otherwise buffer all of stdin and
issue one POST with `Content-Length` equal to the buffered byte count. -/
def session_hook_forwarder (argv2 argv3 : Option String) (stdin : List Nat) :
    ForwarderResult :=
  let port : Option Int := match argv2 with
    | none => none
    | some s => parseIntJs s
  let eventType := forwardedEventType argv3
  match port with
  | none => .exitError 1
  | some p =>
    if p = 0 then .exitError 1
    else
      .posted ⟨"127.0.0.1", p, "POST", "/hook/" ++ eventType,
        "application/json", stdin.length⟩

/-! ## Helper lemmas -/

lemma truthy_str (s : String) : truthy (.str s) = (s != "") := rfl

lemma sessionStartData_true_responses (cb : Option CallbackBehavior) (data : JsValue) :
    (sessionStartData cb true data).responses = [] := by
  unfold sessionStartData
  cases hx : sessionStartExtract data with
  | error e => rfl
  | ok o =>
    cases o with
    | none => rfl
    | some sid =>
      cases cb with
      | none => rfl
      | some beh => cases hb : beh.throws <;> simp

lemma sessionStartData_responses_length (cb : Option CallbackBehavior) (ar : Bool)
    (data : JsValue) : (sessionStartData cb ar data).responses.length ≤ 1 := by
  unfold sessionStartData
  cases hx : sessionStartExtract data with
  | error e => cases ar <;> simp
  | ok o =>
    cases o with
    | none => cases ar <;> simp
    | some sid =>
      cases cb with
      | none => cases ar <;> simp
      | some beh => cases hb : beh.throws <;> cases ar <;> simp [hb]

lemma sessionStartRoute_responses_length (cb : Option CallbackBehavior) (b : BodyOutcome) :
    (sessionStartRoute cb b).responses.length ≤ 1 := by
  cases b with
  | complete body => exact sessionStartData_responses_length cb false _
  | drainError => simp [sessionStartRoute]
  | timeout => simp [sessionStartRoute]
  | timeoutThenComplete body =>
    simp [sessionStartRoute, sessionStartComplete, sessionStartData_true_responses]

lemma drainRoute_responses_length (cb : Option CallbackBehavior) (inv : Invocation)
    (b : BodyOutcome) : (drainRoute cb inv b).responses.length ≤ 1 := by
  cases b <;> cases cb <;> simp [drainRoute, drainComplete] <;>
    (rename_i beh; cases hb : beh.throws <;> simp)

lemma sessionStartData_no_404 (cb : Option CallbackBehavior) (ar : Bool) (data : JsValue) :
    ∀ r ∈ (sessionStartData cb ar data).responses, r.1 ≠ 404 := by
  unfold sessionStartData
  cases hx : sessionStartExtract data with
  | error e => cases ar <;> simp
  | ok o =>
    cases o with
    | none => cases ar <;> simp
    | some sid =>
      cases cb with
      | none => cases ar <;> simp
      | some beh => cases hb : beh.throws <;> cases ar <;> simp [hb]

lemma sessionStartRoute_no_404 (cb : Option CallbackBehavior) (b : BodyOutcome) :
    ∀ r ∈ (sessionStartRoute cb b).responses, r.1 ≠ 404 := by
  cases b with
  | complete body => exact sessionStartData_no_404 cb false _
  | drainError => simp [sessionStartRoute]
  | timeout => simp [sessionStartRoute]
  | timeoutThenComplete body =>
    simp [sessionStartRoute, sessionStartComplete, sessionStartData_true_responses]

lemma drainRoute_no_404 (cb : Option CallbackBehavior) (inv : Invocation)
    (b : BodyOutcome) : ∀ r ∈ (drainRoute cb inv b).responses, r.1 ≠ 404 := by
  cases b <;> cases cb <;> simp [drainRoute, drainComplete] <;>
    (rename_i beh; cases hb : beh.throws <;> simp)

/-! ## The claims -/

/-- Claim C5: if the Forwarder's port argument is missing, non-numeric
(`parseInt` yields `NaN`), or parses to zero, the Forwarder exits with
status 1 before any stdin read and performs no network I/O. The conclusion
is `exitError`, which carries no outbound request, and it holds uniformly in
the stdin contents, so nothing of stdin is consumed or forwarded. -/
theorem forwarder_invalid_port_exits_1 (argv2 argv3 : Option String) (stdin : List Nat)
    (h : argv2 = none ∨
      ∃ s, argv2 = some s ∧ (parseIntJs s = none ∨ parseIntJs s = some 0)) :
    session_hook_forwarder argv2 argv3 stdin = .exitError 1 := by
  rcases h with h | ⟨s, hs, h⟩
  · subst h; rfl
  · subst hs
    rcases h with h | h <;> simp [session_hook_forwarder, h]

/-- Witness for C5 at the concrete non-numeric argument `"abc"`. -/
theorem forwarder_invalid_port_exits_1_witness :
    session_hook_forwarder (some "abc") none [1, 2, 3] = .exitError 1 :=
  forwarder_invalid_port_exits_1 (some "abc") none [1, 2, 3]
    (Or.inr ⟨"abc", rfl, Or.inl rfl⟩)

/-- Claim C6: for every valid port and arbitrary stdin payload, the Forwarder
reads stdin to end-of-stream and issues exactly one POST to
`http://127.0.0.1:<port>/hook/<event-type>` with `Content-Type:
application/json` and `Content-Length` equal to the buffered byte count;
the event type defaults to `session-start` when the second argument is
omitted. -/
theorem forwarder_posts_once_with_content_length (s : String) (p : Int)
    (argv3 : Option String) (stdin : List Nat)
    (h1 : parseIntJs s = some p) (h2 : p ≠ 0) :
    session_hook_forwarder (some s) argv3 stdin =
      .posted ⟨"127.0.0.1", p, "POST", "/hook/" ++ forwardedEventType argv3,
        "application/json", stdin.length⟩ ∧
    forwardedEventType none = "session-start" := by
  refine ⟨?_, rfl⟩
  simp [session_hook_forwarder, h1, h2]

/-- Witness for C6 at port `"8080"`, omitted event type and a 3-byte payload. -/
theorem forwarder_posts_once_with_content_length_witness :
    session_hook_forwarder (some "8080") none [104, 105, 33] =
      .posted ⟨"127.0.0.1", 8080, "POST", "/hook/session-start",
        "application/json", 3⟩ ∧
    forwardedEventType none = "session-start" :=
  forwarder_posts_once_with_content_length "8080" 8080 none [104, 105, 33] rfl
    (by decide)

/-- Claim C4: a complete body received in time on the session-start route
that fails to parse as JSON is treated as the empty object: the route
responds 200 and invokes no callback, never a 500, for every registered
callback slot. -/
theorem malformed_json_yields_200_no_callback (cb : Option CallbackBehavior)
    (body : String) (h : jsonParse body = none) :
    sessionStartRoute cb (.complete body) = ⟨[(200, "ok")], []⟩ := by
  simp [sessionStartRoute, sessionStartComplete, h, sessionStartData,
    sessionStartExtract, getProp, objGet, truthy]

/-- Witness for C4 at the concrete invalid payload `not json`. -/
theorem malformed_json_yields_200_no_callback_witness :
    sessionStartRoute (some ⟨false⟩) (.complete "not json") = ⟨[(200, "ok")], []⟩ :=
  malformed_json_yields_200_no_callback (some ⟨false⟩) "not json" rfl

/-- Claim C9: a body whose JSON parse result is `null` makes the identifier
extraction `data.session_id` throw a TypeError, so the session-start route
responds 500 and does not invoke `onSessionHook`, for every registered
callback slot. -/
theorem json_null_body_500 (cb : Option CallbackBehavior) (body : String)
    (h : jsonParse body = some .null) :
    sessionStartRoute cb (.complete body) = ⟨[(500, "error")], []⟩ := by
  simp [sessionStartRoute, sessionStartComplete, h, sessionStartData,
    sessionStartExtract, getProp]

/-- Witness for C9 at the concrete body `null`. -/
theorem json_null_body_500_witness :
    sessionStartRoute (some ⟨false⟩) (.complete "null") = ⟨[(500, "error")], []⟩ :=
  json_null_body_500 (some ⟨false⟩) "null" rfl

/-- Counterexample to claim C2 as stated: in the body with
`session_id` mapped to the empty string and `sessionId` mapped to `"b"`,
the key `session_id` is present, yet the route invokes the callback with
`"b"` taken from `sessionId` — the camelCase key is used even though
`session_id` is present, because precedence is decided by truthiness. -/
theorem sessionId_empty_snake_falls_back_camel :
    sessionStartRoute (some ⟨false⟩)
        (.complete "\x7b\"session_id\":\"\",\"sessionId\":\"b\"\x7d") =
      ⟨[(200, "ok")],
        [.sessionHook (.str "b")
          (.obj [("session_id", .str ""), ("sessionId", .str "b")])]⟩ := rfl

/-- Claim C2, amended: the value under `session_id` is used whenever it is
truthy (in particular whenever it is a non-empty string), and `sessionId` is
consulted only when `session_id` is absent or falsy; in particular the body
with `session_id` mapped to `"a"` and `sessionId` mapped to `"b"` invokes
`onSessionHook` with `"a"`. -/
theorem sessionId_snake_case_truthy_precedence :
    (∀ (t : Bool) (body : String) (fields : List (String × JsValue)),
      jsonParse body = some (.obj fields) →
      truthy (objGet fields "session_id") = true →
      (sessionStartRoute (some ⟨t⟩) (.complete body)).invocations =
        [.sessionHook (objGet fields "session_id") (.obj fields)]) ∧
    sessionStartRoute (some ⟨false⟩)
        (.complete "\x7b\"session_id\":\"a\",\"sessionId\":\"b\"\x7d") =
      ⟨[(200, "ok")],
        [.sessionHook (.str "a")
          (.obj [("session_id", .str "a"), ("sessionId", .str "b")])]⟩ := by
  refine ⟨?_, rfl⟩
  intro t body fields h1 h2
  simp [sessionStartRoute, sessionStartComplete, h1, sessionStartData,
    sessionStartExtract, getProp, h2]
  cases t <;> simp

/-- Witness for the amended C2 at the body carrying both key spellings. -/
theorem sessionId_snake_case_truthy_precedence_witness :
    (sessionStartRoute (some ⟨false⟩)
        (.complete "\x7b\"session_id\":\"a\",\"sessionId\":\"b\"\x7d")).invocations =
      [.sessionHook (.str "a")
        (.obj [("session_id", .str "a"), ("sessionId", .str "b")])] :=
  sessionId_snake_case_truthy_precedence.1 false
    "\x7b\"session_id\":\"a\",\"sessionId\":\"b\"\x7d"
    [("session_id", .str "a"), ("sessionId", .str "b")] rfl rfl

/-- Claim C10: identifier presence is tested by truthiness, not key presence:
when `session_id` holds the empty string the route falls back to the value
under `sessionId`, and when that is also falsy or absent the event is
dropped — no callback — while the route still responds 200. -/
theorem identifier_truthiness_fallback :
    (∀ (t : Bool) (body : String) (fields : List (String × JsValue)),
      jsonParse body = some (.obj fields) →
      objGet fields "session_id" = .str "" →
      truthy (objGet fields "sessionId") = true →
      (sessionStartRoute (some ⟨t⟩) (.complete body)).invocations =
        [.sessionHook (objGet fields "sessionId") (.obj fields)]) ∧
    (∀ (cb : Option CallbackBehavior) (body : String) (fields : List (String × JsValue)),
      jsonParse body = some (.obj fields) →
      objGet fields "session_id" = .str "" →
      truthy (objGet fields "sessionId") = false →
      sessionStartRoute cb (.complete body) = ⟨[(200, "ok")], []⟩) := by
  constructor
  · intro t body fields h1 h2 h3
    simp [sessionStartRoute, sessionStartComplete, h1, sessionStartData,
      sessionStartExtract, getProp, h2, h3, truthy_str]
    cases t <;> simp
  · intro cb body fields h1 h2 h3
    simp [sessionStartRoute, sessionStartComplete, h1, sessionStartData,
      sessionStartExtract, getProp, h2, h3, truthy_str]

/-- Witness for C10: with `session_id` empty the route falls back to the
truthy `sessionId` value, and with both falsy it responds 200 invoking
nothing. -/
theorem identifier_truthiness_fallback_witness :
    (sessionStartRoute (some ⟨false⟩)
        (.complete "\x7b\"session_id\":\"\",\"sessionId\":\"x\"\x7d")).invocations =
      [.sessionHook (.str "x")
        (.obj [("session_id", .str ""), ("sessionId", .str "x")])] ∧
    sessionStartRoute (some ⟨false⟩) (.complete "\x7b\"session_id\":\"\"\x7d") =
      ⟨[(200, "ok")], []⟩ :=
  ⟨identifier_truthiness_fallback.1 false
      "\x7b\"session_id\":\"\",\"sessionId\":\"x\"\x7d"
      [("session_id", .str ""), ("sessionId", .str "x")] rfl rfl rfl,
    identifier_truthiness_fallback.2 (some ⟨false⟩)
      "\x7b\"session_id\":\"\"\x7d" [("session_id", .str "")] rfl rfl rfl⟩

/-- Counterexample to claim C1 as stated: when the 5-second timer has fired
and the 408 was sent, but the body then arrives and the stream completes
with a payload carrying a session id, the handler resumes and still invokes
`onSessionHook` — the claim that no callback is ever invoked after the 408
fails. The callback guard in the source protects only the response write,
not the invocation. -/
theorem sessionStart_late_body_still_invokes_callback :
    sessionStartRoute (some ⟨false⟩)
        (.timeoutThenComplete "\x7b\"session_id\":\"a\"\x7d") =
      ⟨[(408, "timeout")],
        [.sessionHook (.str "a") (.obj [("session_id", .str "a")])]⟩ := rfl

/-- Claim C1, amended: if the full body has not been received within the
5-second window the route responds 408, and that is the only response ever
committed for the request; while the body remains incomplete no callback is
invoked; however, if the stream does complete after the 408 was sent, the
handler resumes and `onSessionHook` is still invoked whenever the late body
yields a truthy session id (the subsequent 200 write throws on the committed
response and is swallowed). -/
theorem sessionStart_timeout_408 :
    (∀ (cb : Option CallbackBehavior),
      sessionStartRoute cb .timeout = ⟨[(408, "timeout")], []⟩) ∧
    (∀ (cb : Option CallbackBehavior) (body : String),
      (sessionStartRoute cb (.timeoutThenComplete body)).responses =
        [(408, "timeout")]) ∧
    (∀ (beh : CallbackBehavior) (body : String) (sid : JsValue),
      sessionStartExtract ((jsonParse body).getD (.obj [])) = .ok (some sid) →
      (sessionStartRoute (some beh) (.timeoutThenComplete body)).invocations =
        [.sessionHook sid ((jsonParse body).getD (.obj []))]) := by
  refine ⟨fun cb => rfl, fun cb body => ?_, fun beh body sid h => ?_⟩
  · simp [sessionStartRoute, sessionStartComplete, sessionStartData_true_responses]
  · simp [sessionStartRoute, sessionStartComplete, sessionStartData, h]

/-- Witness for the amended C1 at a late-completing body carrying an id. -/
theorem sessionStart_timeout_408_witness :
    sessionStartRoute (some ⟨true⟩) .timeout = ⟨[(408, "timeout")], []⟩ ∧
    (sessionStartRoute (some ⟨true⟩)
        (.timeoutThenComplete "\x7b\"sessionId\":\"z\"\x7d")).invocations =
      [.sessionHook (.str "z") (.obj [("sessionId", .str "z")])] :=
  ⟨sessionStart_timeout_408.1 (some ⟨true⟩),
    sessionStart_timeout_408.2.2 ⟨true⟩ "\x7b\"sessionId\":\"z\"\x7d"
      (.str "z") rfl⟩

/-- Counterexample to claim C3 as stated: with `onSessionHook` absent at
runtime, a session-start request whose body carries a session id makes the
handler call a missing function; the thrown TypeError is caught and the
route responds 500, not 200 — so not all three handlers are independently
optional. In the source interface `onSessionHook` is also the one field
declared without the optional marker. -/
theorem absent_onSessionHook_yields_500 :
    handleRequest ⟨none, none, none⟩
        ⟨"POST", "/hook/session-start", .complete "\x7b\"session_id\":\"a\"\x7d"⟩ =
      ⟨[(500, "error")], []⟩ := rfl

/-- Claim C3, amended: `onThinkingStart` and `onThinkingStop` are
independently optional — when absent, their routes drain the body and
respond 200 invoking nothing. `onSessionHook` is required by the interface;
when it is nevertheless absent at runtime, the session-start route responds
200 without invoking anything only when no truthy session id is extracted;
when one is extracted, invoking the missing handler throws and the route
responds 500. -/
theorem thinking_callbacks_optional_sessionHook_required :
    (∀ (cbS : Option CallbackBehavior) (body : String),
      handleRequest ⟨cbS, none, none⟩
          ⟨"POST", "/hook/user-prompt-submit", .complete body⟩ =
        ⟨[(200, "ok")], []⟩ ∧
      handleRequest ⟨cbS, none, none⟩ ⟨"POST", "/hook/stop", .complete body⟩ =
        ⟨[(200, "ok")], []⟩) ∧
    (∀ (body : String),
      sessionStartExtract ((jsonParse body).getD (.obj [])) = .ok none →
      sessionStartRoute none (.complete body) = ⟨[(200, "ok")], []⟩) ∧
    (∀ (body : String) (sid : JsValue),
      sessionStartExtract ((jsonParse body).getD (.obj [])) = .ok (some sid) →
      sessionStartRoute none (.complete body) = ⟨[(500, "error")], []⟩) := by
  refine ⟨fun cbS body => ⟨rfl, rfl⟩, fun body h => ?_, fun body sid h => ?_⟩
  · simp [sessionStartRoute, sessionStartComplete, sessionStartData, h]
  · simp [sessionStartRoute, sessionStartComplete, sessionStartData, h]

/-- Witness for the amended C3: absent thinking handlers still yield 200,
and the absent session handler yields 200 exactly when no id is extracted. -/
theorem thinking_callbacks_optional_sessionHook_required_witness :
    handleRequest ⟨none, none, none⟩
        ⟨"POST", "/hook/user-prompt-submit", .complete "\x7b\x7d"⟩ =
      ⟨[(200, "ok")], []⟩ ∧
    sessionStartRoute none (.complete "\x7b\x7d") = ⟨[(200, "ok")], []⟩ :=
  ⟨(thinking_callbacks_optional_sessionHook_required.1 none "\x7b\x7d").1,
    thinking_callbacks_optional_sessionHook_required.2.1 "\x7b\x7d" rfl⟩

/-- Claim C8: exactly the three pairs `POST /hook/user-prompt-submit`,
`POST /hook/stop` and `POST /hook/session-start` are recognized; every other
method/path combination yields 404 with no body processing (the result does
not depend on the body at all) and no callback invocation, and a recognized
route never responds 404. -/
theorem routing_unrecognized_404 :
    (∀ (opts : HookServerOptions) (method url : String) (body : BodyOutcome),
      ¬ recognizedRoute method url →
      handleRequest opts ⟨method, url, body⟩ = ⟨[(404, "not found")], []⟩) ∧
    (∀ (opts : HookServerOptions) (method url : String) (body : BodyOutcome),
      recognizedRoute method url →
      ∀ r ∈ (handleRequest opts ⟨method, url, body⟩).responses, r.1 ≠ 404) := by
  constructor
  · intro opts method url body h
    unfold handleRequest
    rw [if_neg fun hc => h ⟨hc.1, Or.inl hc.2⟩,
      if_neg fun hc => h ⟨hc.1, Or.inr (Or.inl hc.2)⟩,
      if_neg fun hc => h ⟨hc.1, Or.inr (Or.inr hc.2)⟩]
  · intro opts method url body h
    obtain ⟨hm, hu | hu | hu⟩ := h <;> subst hm <;> subst hu
    · simpa [handleRequest] using
        drainRoute_no_404 opts.onThinkingStart .thinkingStart body
    · simpa [handleRequest] using
        drainRoute_no_404 opts.onThinkingStop .thinkingStop body
    · simpa [handleRequest] using
        sessionStartRoute_no_404 opts.onSessionHook body

/-- Witness for C8 at `GET /hook/session-start` and `POST /unknown`. -/
theorem routing_unrecognized_404_witness :
    handleRequest ⟨none, none, none⟩ ⟨"GET", "/hook/session-start", .complete ""⟩ =
      ⟨[(404, "not found")], []⟩ ∧
    handleRequest ⟨none, none, none⟩ ⟨"POST", "/unknown", .complete ""⟩ =
      ⟨[(404, "not found")], []⟩ :=
  ⟨routing_unrecognized_404.1 ⟨none, none, none⟩ "GET" "/hook/session-start"
      (.complete "") (by decide),
    routing_unrecognized_404.1 ⟨none, none, none⟩ "POST" "/unknown"
      (.complete "") (by decide)⟩

/-- Claim C7: on every route, any request commits at most one response; when
a registered callback throws or the body drain errors before a response was
committed, the single attempted response is a 500; when a response was
already committed (the 408 of the session-start timer), nothing further is
written; and the listener serves every subsequent request with the same
handler, independently of earlier failures. -/
theorem errors_single_500_and_server_continues :
    (∀ (opts : HookServerOptions) (req : Request),
      (handleRequest opts req).responses.length ≤ 1) ∧
    (∀ (opts : HookServerOptions) (method url : String),
      recognizedRoute method url →
      handleRequest opts ⟨method, url, .drainError⟩ = ⟨[(500, "error")], []⟩) ∧
    (∀ (opts : HookServerOptions) (body : String),
      opts.onThinkingStart = some ⟨true⟩ →
      handleRequest opts ⟨"POST", "/hook/user-prompt-submit", .complete body⟩ =
        ⟨[(500, "error")], [.thinkingStart]⟩) ∧
    (∀ (opts : HookServerOptions) (body : String),
      opts.onThinkingStop = some ⟨true⟩ →
      handleRequest opts ⟨"POST", "/hook/stop", .complete body⟩ =
        ⟨[(500, "error")], [.thinkingStop]⟩) ∧
    (∀ (opts : HookServerOptions) (body : String) (sid : JsValue),
      opts.onSessionHook = some ⟨true⟩ →
      sessionStartExtract ((jsonParse body).getD (.obj [])) = .ok (some sid) →
      handleRequest opts ⟨"POST", "/hook/session-start", .complete body⟩ =
        ⟨[(500, "error")], [.sessionHook sid ((jsonParse body).getD (.obj []))]⟩) ∧
    (∀ (body : String),
      (sessionStartRoute (some ⟨true⟩) (.timeoutThenComplete body)).responses =
        [(408, "timeout")]) ∧
    (∀ (opts : HookServerOptions) (rs1 rs2 : List Request),
      serveRequests opts (rs1 ++ rs2) =
        serveRequests opts rs1 ++ serveRequests opts rs2) := by
  refine ⟨?_, ?_, ?_, ?_, ?_, ?_, ?_⟩
  · intro opts req
    obtain ⟨method, url, body⟩ := req
    unfold handleRequest
    split
    · exact drainRoute_responses_length _ _ _
    · split
      · exact drainRoute_responses_length _ _ _
      · split
        · exact sessionStartRoute_responses_length _ _
        · simp
  · intro opts method url h
    obtain ⟨hm, hu | hu | hu⟩ := h <;> subst hm <;> subst hu <;>
      simp [handleRequest, drainRoute, sessionStartRoute]
  · intro opts body h
    simp [handleRequest, drainRoute, drainComplete, h]
  · intro opts body h
    simp [handleRequest, drainRoute, drainComplete, h]
  · intro opts body sid h1 h2
    simp [handleRequest, sessionStartRoute, sessionStartComplete,
      sessionStartData, h1, h2]
  · intro body
    simp [sessionStartRoute, sessionStartComplete, sessionStartData_true_responses]
  · intro opts rs1 rs2
    simp [serveRequests]

/-- Witness for C7: a throwing thinking callback yields one 500 and still
its invocation; a body-drain error yields one 500; a throwing session
callback after the 408 adds no second response. -/
theorem errors_single_500_and_server_continues_witness :
    handleRequest ⟨none, some ⟨true⟩, none⟩
        ⟨"POST", "/hook/user-prompt-submit", .complete "x"⟩ =
      ⟨[(500, "error")], [.thinkingStart]⟩ ∧
    handleRequest ⟨none, none, none⟩ ⟨"POST", "/hook/stop", .drainError⟩ =
      ⟨[(500, "error")], []⟩ ∧
    handleRequest ⟨some ⟨true⟩, none, none⟩
        ⟨"POST", "/hook/session-start", .complete "\x7b\"session_id\":\"a\"\x7d"⟩ =
      ⟨[(500, "error")],
        [.sessionHook (.str "a") (.obj [("session_id", .str "a")])]⟩ :=
  ⟨errors_single_500_and_server_continues.2.2.1 ⟨none, some ⟨true⟩, none⟩ "x" rfl,
    errors_single_500_and_server_continues.2.1 ⟨none, none, none⟩ "POST"
      "/hook/stop" (by decide),
    errors_single_500_and_server_continues.2.2.2.2.1 ⟨some ⟨true⟩, none, none⟩
      "\x7b\"session_id\":\"a\"\x7d" (.str "a") rfl rfl⟩

end HappyHooks
